import Mathlib

/-!
Shallow embedding of the LR-conflict diagnostic reporting subsystem of
`src/build.rs` (the `AriadneLexErrorHandler` and `AriadneGrammarErrorHandler`
error handlers for a grmtools-based grammar build).

Conventions of the embedding:
* byte offsets and indices (`PIdx`, `TIdx`, `RIdx`, `StIdx`) are `Nat`;
* a Rust `String`/`PathBuf` is a Lean `String` (the path is used only through
  `path.display().to_string()`);
* a `HashSet<String>` handed to `missing_in_lexer` is modelled as the list of
  its elements in set-iteration order (distinctness is irrelevant to the code);
* a Rust panic (an `unwrap` failure) is modelled by returning `none`: a handler
  method that can panic has result type `Option _`;
* the ariadne crate (`Report::write`) is an external dependency, so rendering a
  report to text is a parameter `render : Report _ → String` of `results`;
  concrete instantiations use the explicit `renderPlain` below.
-/

/-- `cfgrammar::Span`: a byte range into one source text. -/
structure Span where
  start : Nat
  «end» : Nat
deriving Repr, DecidableEq

/-- `LSpan(String, cfgrammar::Span)`: a span tagged with its source id
(the lexer path), as required by `ariadne::Span`. -/
structure LSpan where
  source : String
  span : Span
deriving Repr, DecidableEq

/-- `GSpan(String, cfgrammar::Span)`: identical to `LSpan` but for the
grammar source. -/
structure GSpan where
  source : String
  span : Span
deriving Repr, DecidableEq

/-- `ariadne::ReportKind` (only the two constructors used by the code). -/
inductive ReportKind where
  | error
  | warning
deriving Repr, DecidableEq

/-- An ariadne `Label`: built as `Label::new(span).with_message(msg)`. -/
structure Label (S : Type) where
  span : S
  message : String
deriving Repr, DecidableEq

/-- The observable content of an ariadne `Report` as the code builds it:
`Report::build(kind, source_id, offset)`, then `.with_message`, a sequence of
`.with_label` calls (in order), and optionally `.set_note`. -/
structure Report (S : Type) where
  kind : ReportKind
  sourceId : String
  offset : Nat
  message : String
  labels : List (Label S)
  note : Option String
deriving Repr, DecidableEq

/-- A concrete stand-in for the external ariadne renderer: surfaces the
report's message and note.  Used to instantiate the `render` parameter of
`results` on concrete inputs. -/
def renderPlain {S : Type} (r : Report S) : String :=
  r.message ++ (match r.note with | some n => "\n" ++ n | none => "") ++ "\n"

/-- A Rust `for` loop that applies `f` to each element and `unwrap`s inside:
`none` (panic) as soon as `f` fails, otherwise the list of results in input
order. -/
def tryMap {α β : Type} (f : α → Option β) : List α → Option (List β)
  | [] => some []
  | a :: as =>
    match f a with
    | none => none
    | some b =>
      match tryMap f as with
      | none => none
      | some bs => some (b :: bs)

/-- `cfgrammar::yacc::ast::Symbol`: one right-hand-side element of a
production, `Rule(name, span)` or `Token(name, span)`.  (Named `AstSymbol`
because plain `Symbol` collides with a Mathlib declaration.) -/
inductive AstSymbol where
  | rule (name : String) (span : Span)
  | token (name : String) (span : Span)
deriving Repr, DecidableEq

/-- The `(format!("'{}'", name), span)` pair the code extracts from a symbol
(the two `match` arms of `pidx_prods_data` are textually identical). -/
def AstSymbol.data : AstSymbol → String × Span
  | .rule name span => ("\x27" ++ name ++ "\x27", span)
  | .token name span => ("\x27" ++ name ++ "\x27", span)

/-- One production of `GrammarAST.prods`: its ordered symbol list. -/
structure Production where
  symbols : List AstSymbol
deriving Repr, DecidableEq

/-- The part of `cfgrammar::yacc::ast::GrammarAST` the code reads: the
production table `prods`. -/
structure GrammarAST where
  prods : List Production
deriving Repr, DecidableEq

/-- `pidx_prods_data(ast, pidx)`: bounds-checked lookup of a production's
symbol names (quoted) and spans; `(vec![], vec![])` when `pidx` is out of
range for `ast.prods`. -/
def pidx_prods_data (ast : GrammarAST) (pidx : Nat) : List String × List Span :=
  if h : pidx < ast.prods.length then
    ((ast.prods.get ⟨pidx, h⟩).symbols.map AstSymbol.data).unzip
  else
    ([], [])

/-- The lookups `on_unexpected_conflicts` performs on the compiled
`YaccGrammar`: total rule lookups, and `Option`-valued token lookups
(`token_span`/`token_name` return `Option` in grmtools). -/
structure YaccGrammar where
  prod_to_rule : Nat → Nat
  rule_name_span : Nat → Span
  rule_name_str : Nat → String
  token_span : Nat → Option Span
  token_name : Nat → Option String

/-- `lrtable::statetable::Conflicts`: the reduce/reduce triples
`(r1_prod_idx, r2_prod_idx, st_idx)` and shift/reduce triples
`(s_tok_idx, r_prod_idx, st_idx)`, each in state-table iteration order. -/
structure Conflicts where
  rr_conflicts : List (Nat × Nat × Nat)
  sr_conflicts : List (Nat × Nat × Nat)

/-- `lrlex::LexBuildError` as the handler observes it: its span list
(`err.spans()`) and its display text (`err.to_string()`). -/
structure LexBuildError where
  spans : List Span
  message : String
deriving Repr, DecidableEq

/-- `cfgrammar::yacc::YaccGrammarError` as the handler observes it. -/
structure YaccGrammarError where
  spans : List Span
  message : String
deriving Repr, DecidableEq

/-- `cfgrammar::yacc::YaccGrammarWarning` as the handler observes it. -/
structure YaccGrammarWarning where
  spans : List Span
  message : String
deriving Repr, DecidableEq

/-- The state of `AriadneLexErrorHandler`. -/
structure AriadneLexErrorHandler where
  src : String
  path : String
  reports : List (Report LSpan)
deriving Repr, DecidableEq

/-- `AriadneLexErrorHandler::new()`. -/
def AriadneLexErrorHandler.new : AriadneLexErrorHandler :=
  { src := "", path := "", reports := [] }

/-- `AriadneLexErrorHandler::on_lex_build_error`: for each error, take the
FIRST span with `spans.first().unwrap()` (so an error with no spans panics,
modelled as `none`) and push an error report carrying the error's text. -/
def AriadneLexErrorHandler.on_lex_build_error (h : AriadneLexErrorHandler)
    (errs : List LexBuildError) : Option AriadneLexErrorHandler :=
  let path_name := h.path
  (tryMap (fun err =>
      (err.spans.head?).map fun span =>
        ({ kind := .error, sourceId := path_name, offset := span.start,
           message := err.message, labels := [], note := none } : Report LSpan)) errs).map
    fun rs => { h with reports := h.reports ++ rs }

/-- `AriadneLexErrorHandler::missing_in_lexer`: one error report at offset 0
with the fixed message; when `missing` is non-empty its note starts from the
first element of the set's iterator and then appends `", {n}"` for EVERY
element of the whole set (the loop re-traverses `missing`, not the iterator's
remainder, so the first element appears twice). -/
def AriadneLexErrorHandler.missing_in_lexer (h : AriadneLexErrorHandler)
    (missing : List String) : AriadneLexErrorHandler :=
  let path_name := h.path
  let report : Report LSpan :=
    { kind := .error, sourceId := path_name, offset := 0,
      message := "The following tokens are used in the grammar but are not defined in the lexer:",
      labels := [],
      note :=
        match missing with
        | [] => none
        | first :: _ => some (missing.foldl (fun note n => note ++ ", " ++ n) first) }
  { h with reports := h.reports ++ [report] }

/-- `AriadneLexErrorHandler::results`: `Ok(())` when no reports were
collected, otherwise `Err` whose body is every report rendered in order
(`render` stands for the external `ariadne::Report::write`). -/
def AriadneLexErrorHandler.results (h : AriadneLexErrorHandler)
    (render : Report LSpan → String) : Except String Unit :=
  if h.reports.isEmpty then
    .ok ()
  else
    .error (String.join (h.reports.map render))

/-- The state of `AriadneGrammarErrorHandler`.  Note that `errors` and
`warnings` are `String` fields distinct from the report vectors. -/
structure AriadneGrammarErrorHandler where
  src : String
  path : String
  err_reports : List (Report GSpan)
  warning_reports : List (Report GSpan)
  errors : String
  warnings : String
  warnings_are_errors : Bool
deriving Repr, DecidableEq

/-- `AriadneGrammarErrorHandler::new()`. -/
def AriadneGrammarErrorHandler.new : AriadneGrammarErrorHandler :=
  { src := "", path := "", errors := "", warnings := "",
    warnings_are_errors := false, err_reports := [], warning_reports := [] }

/-- The `warnings_are_errors(&mut self, flag)` setter (renamed
`set_warnings_are_errors` because the Lean field projection already uses the
method's name): stores the flag in the `warnings_are_errors` field. -/
def AriadneGrammarErrorHandler.set_warnings_are_errors
    (h : AriadneGrammarErrorHandler) (flag : Bool) : AriadneGrammarErrorHandler :=
  { h with warnings_are_errors := flag }

/-- `AriadneGrammarErrorHandler::on_grammar_warning`: for each warning, take
the FIRST span with `spans.first().unwrap()` (empty span list panics,
modelled as `none`) and push a warning report carrying the warning's text. -/
def AriadneGrammarErrorHandler.on_grammar_warning (h : AriadneGrammarErrorHandler)
    (warnings : List YaccGrammarWarning) : Option AriadneGrammarErrorHandler :=
  let path_name := h.path
  (tryMap (fun w =>
      (w.spans.head?).map fun span =>
        ({ kind := .warning, sourceId := path_name, offset := span.start,
           message := w.message, labels := [], note := none } : Report GSpan)) warnings).map
    fun rs => { h with warning_reports := h.warning_reports ++ rs }

/-- `AriadneGrammarErrorHandler::on_grammar_error`: for each error, take the
FIRST span with `spans.first().unwrap()` (empty span list panics, modelled as
`none`) and push an error report carrying the error's text. -/
def AriadneGrammarErrorHandler.on_grammar_error (h : AriadneGrammarErrorHandler)
    (errs : List YaccGrammarError) : Option AriadneGrammarErrorHandler :=
  let path_name := h.path
  (tryMap (fun err =>
      (err.spans.head?).map fun span =>
        ({ kind := .error, sourceId := path_name, offset := span.start,
           message := err.message, labels := [], note := none } : Report GSpan)) errs).map
    fun rs => { h with err_reports := h.err_reports ++ rs }

/-- The report one iteration of the reduce/reduce loop of
`on_unexpected_conflicts` pushes for the triple
`(r1_prod_idx, r2_prod_idx, st_idx)`: message `"Reduce/Reduce"`, built at the
start of the rule-name span of the rule owning `r1_prod_idx`, with the
`"1st Reduce"` label on that span and the `"2nd Reduce"` label on the
rule-name span of the rule owning `r2_prod_idx`. -/
def rr_report (path_name : String) (grm : YaccGrammar)
    (c : Nat × Nat × Nat) : Report GSpan :=
  let r1_rule_idx := grm.prod_to_rule c.1
  let r2_rule_idx := grm.prod_to_rule c.2.1
  let r1_span := grm.rule_name_span r1_rule_idx
  let r2_span := grm.rule_name_span r2_rule_idx
  { kind := .error, sourceId := path_name, offset := r1_span.start,
    message := "Reduce/Reduce",
    labels := [⟨⟨path_name, r1_span⟩, "1st Reduce"⟩,
               ⟨⟨path_name, r2_span⟩, "2nd Reduce"⟩],
    note := none }

/-- The report one iteration of the shift/reduce loop of
`on_unexpected_conflicts` pushes for the triple
`(s_tok_idx, r_prod_idx, st_idx)`.  The code `unwrap`s both
`grm.token_span(s_tok_idx)` and `grm.token_name(s_tok_idx)`, so a token
without a span or name panics (modelled as `none`).  Otherwise: message
`"Shift/Reduce"`, built at the start of the owning rule's name span, first
label `"Shifted"` on the token span, second label `"Reduced rule"` on the
rule-name span, then one `"Reduced production"` label per symbol span of the
production (via `pidx_prods_data`), folded on in order. -/
def sr_report (path_name : String) (ast : GrammarAST) (grm : YaccGrammar)
    (c : Nat × Nat × Nat) : Option (Report GSpan) :=
  let s_tok_idx := c.1
  let r_prod_idx := c.2.1
  match grm.token_span s_tok_idx, grm.token_name s_tok_idx with
  | some s_tok_span, some _shift_name =>
    let r_prod_spans := (pidx_prods_data ast r_prod_idx).2
    let rule_idx := grm.prod_to_rule r_prod_idx
    let rule_span := grm.rule_name_span rule_idx
    some { kind := .error, sourceId := path_name, offset := rule_span.start,
           message := "Shift/Reduce",
           labels := ⟨⟨path_name, s_tok_span⟩, "Shifted"⟩ ::
                     ⟨⟨path_name, rule_span⟩, "Reduced rule"⟩ ::
                     r_prod_spans.map (fun span => ⟨⟨path_name, span⟩, "Reduced production"⟩),
           note := none }
  | _, _ => none

/-- `AriadneGrammarErrorHandler::on_unexpected_conflicts`: the reduce/reduce
loop pushes its reports first (setting `needs_newline` as soon as it runs at
least once), then a `'\n'` is pushed onto the `errors` STRING when
`needs_newline` is set, then the shift/reduce loop pushes its reports (any
token-lookup `unwrap` failure panics, modelled as `none` for the call). -/
def AriadneGrammarErrorHandler.on_unexpected_conflicts
    (h : AriadneGrammarErrorHandler) (ast : GrammarAST) (grm : YaccGrammar)
    (c : Conflicts) : Option AriadneGrammarErrorHandler :=
  let path_name := h.path
  let needs_newline := !c.rr_conflicts.isEmpty
  let rr_reports := c.rr_conflicts.map (rr_report path_name grm)
  let errors := if needs_newline then h.errors ++ "\n" else h.errors
  (tryMap (sr_report path_name ast grm) c.sr_conflicts).map
    fun sr_reports =>
      { h with err_reports := h.err_reports ++ rr_reports ++ sr_reports,
               errors := errors }

/-- `AriadneGrammarErrorHandler::results`: branches on the STRING fields
`errors` and `warnings` (not on the report vectors).  When `errors` is empty:
`Ok(())`.  When `errors` is non-empty and `warnings` is empty:
`Err(format!("\n{}", rendered err_reports))`.  When both strings are
non-empty: `Err(format!("\nWarnings:\n{}\n\nErrors:\n{}\n", rendered
warning_reports, rendered err_reports))`. -/
def AriadneGrammarErrorHandler.results (h : AriadneGrammarErrorHandler)
    (render : Report GSpan → String) : Except String Unit :=
  if h.errors = "" then
    .ok ()
  else if h.warnings = "" then
    .error ("\n" ++ String.join (h.err_reports.map render))
  else
    .error ("\nWarnings:\n" ++ String.join (h.warning_reports.map render) ++
            "\n\nErrors:\n" ++ String.join (h.err_reports.map render) ++ "\n")

/-- Modelled from the spec: the SpanResolver / `NewlineCache` component (the
`newline_cache` field is commented out in `src/build.rs` and the cache itself
lives in the external cfgrammar crate, so no code for it is under `src/`).
The sorted list of newline offsets of a source text, modelled over the
text's character list. -/
def newlineOffsets (text : List Char) : List Nat :=
  (List.range text.length).filter (fun i => text.getD i ' ' = '\n')

/-- Modelled from the spec: `resolve(span, source_text) -> Option (line,
column)`, 1-based.  `none` when `span.start` exceeds the text length;
otherwise the line is the count of newlines at or before `span.start` plus
one, and the column is `span.start` minus the greatest newline offset at or
before it (or `span.start + 1` when no newline precedes it). -/
def resolve (span : Span) (text : List Char) : Option (Nat × Nat) :=
  if span.start > text.length then
    none
  else
    let before := (newlineOffsets text).filter (· ≤ span.start)
    match before.getLast? with
    | none => some (1, span.start + 1)
    | some off => some (before.length + 1, span.start - off)

/-- A concrete compiled-grammar fixture: production `p` is owned by rule `p`,
rule `r` has name span `⟨10 * r, 10 * r + 1⟩`, token `t` has span
`⟨100 + t, 101 + t⟩` and a name. -/
def grmFix : YaccGrammar :=
  { prod_to_rule := fun p => p,
    rule_name_span := fun r => ⟨10 * r, 10 * r + 1⟩,
    rule_name_str := fun _ => "R",
    token_span := fun t => some ⟨100 + t, 101 + t⟩,
    token_name := fun _ => some "T" }

/-- `grmFix` with every token lacking a span (`token_span` returns `None`). -/
def grmNoTokenSpan : YaccGrammar :=
  { grmFix with token_span := fun _ => none }

/-- A concrete AST fixture: one production with symbols `A` (a rule) and `x`
(a token). -/
def astFix : GrammarAST :=
  ⟨[⟨[.rule "A" ⟨0, 1⟩, .token "x" ⟨2, 3⟩]⟩]⟩

/-- `tryMap` fails (the loop panics) exactly when `f` fails on some element. -/
theorem tryMap_eq_none_iff {α β : Type} (f : α → Option β) (l : List α) :
    tryMap f l = none ↔ ∃ a ∈ l, f a = none := by
  induction l with
  | nil => simp [tryMap]
  | cons a as ih =>
    cases hfa : f a <;> cases hrec : tryMap f as <;>
      simp_all [tryMap]

/-- Claim C3: for every production index, including one at or past the number
of productions in the grammar AST, `pidx_prods_data` never aborts: an
out-of-range index yields the empty name and span lists, and an in-range
index yields the production's quoted symbol names and their spans, each in
declaration order. -/
theorem claim_C3_bounds_checked_production_lookup (ast : GrammarAST) (pidx : Nat) :
    pidx_prods_data ast pidx =
      match ast.prods[pidx]? with
      | some prod => (prod.symbols.map (fun s => (AstSymbol.data s).1),
                      prod.symbols.map (fun s => (AstSymbol.data s).2))
      | none => ([], []) := by
  unfold pidx_prods_data
  split
  · rename_i hlt
    rw [List.getElem?_eq_getElem hlt]
    simp [List.get_eq_getElem, List.unzip_eq_map, Function.comp]
  · rename_i hge
    rw [List.getElem?_eq_none (Nat.le_of_not_lt hge)]

/-- Claim C5: every reduce/reduce conflict `(left, right, state)` produces a
report with message `"Reduce/Reduce"`, a first label on the name span of the
rule owning `left` with text `"1st Reduce"`, and a second label on the name
span of the rule owning `right` with text `"2nd Reduce"`. -/
theorem claim_C5_reduce_reduce_report (path : String) (grm : YaccGrammar)
    (left right state : Nat) :
    (rr_report path grm (left, right, state)).message = "Reduce/Reduce" ∧
    (rr_report path grm (left, right, state)).labels =
      [⟨⟨path, grm.rule_name_span (grm.prod_to_rule left)⟩, "1st Reduce"⟩,
       ⟨⟨path, grm.rule_name_span (grm.prod_to_rule right)⟩, "2nd Reduce"⟩] :=
  ⟨rfl, rfl⟩

/-- Claim C6: whenever the shift/reduce loop completes without panicking
(`tryMap` yields `some srs`), `on_unexpected_conflicts` appends to
`err_reports` all reduce/reduce reports first — in the iteration order
supplied by the conflict set — followed by all shift/reduce reports, in their
iteration order, with no re-sorting. -/
theorem claim_C6_rr_reports_before_sr_reports (h : AriadneGrammarErrorHandler)
    (ast : GrammarAST) (grm : YaccGrammar) (c : Conflicts)
    (srs : List (Report GSpan))
    (hsr : tryMap (sr_report h.path ast grm) c.sr_conflicts = some srs) :
    (h.on_unexpected_conflicts ast grm c).map AriadneGrammarErrorHandler.err_reports =
      some (h.err_reports ++ c.rr_conflicts.map (rr_report h.path grm) ++ srs) := by
  simp [AriadneGrammarErrorHandler.on_unexpected_conflicts, hsr]

/-- Witness for C6: one reduce/reduce and one shift/reduce conflict against
the concrete fixtures; the reduce/reduce report comes first. -/
theorem claim_C6_rr_reports_before_sr_reports_witness :
    (AriadneGrammarErrorHandler.new.on_unexpected_conflicts astFix grmFix
        ⟨[(0, 1, 0)], [(0, 0, 0)]⟩).map AriadneGrammarErrorHandler.err_reports =
      some (AriadneGrammarErrorHandler.new.err_reports ++
            List.map (rr_report AriadneGrammarErrorHandler.new.path grmFix) [(0, 1, 0)] ++
            [{ kind := .error, sourceId := "", offset := 0, message := "Shift/Reduce",
               labels := [⟨⟨"", ⟨100, 101⟩⟩, "Shifted"⟩, ⟨⟨"", ⟨0, 1⟩⟩, "Reduced rule"⟩,
                          ⟨⟨"", ⟨0, 1⟩⟩, "Reduced production"⟩,
                          ⟨⟨"", ⟨2, 3⟩⟩, "Reduced production"⟩],
               note := none }]) :=
  claim_C6_rr_reports_before_sr_reports AriadneGrammarErrorHandler.new astFix grmFix
    ⟨[(0, 1, 0)], [(0, 0, 0)]⟩
    [{ kind := .error, sourceId := "", offset := 0, message := "Shift/Reduce",
       labels := [⟨⟨"", ⟨100, 101⟩⟩, "Shifted"⟩, ⟨⟨"", ⟨0, 1⟩⟩, "Reduced rule"⟩,
                  ⟨⟨"", ⟨0, 1⟩⟩, "Reduced production"⟩,
                  ⟨⟨"", ⟨2, 3⟩⟩, "Reduced production"⟩],
       note := none }]
    rfl

/-- Counterexample for C7: a conflict set with one reduce/reduce conflict and
NO shift/reduce conflicts still gets the newline pushed (onto the handler's
`errors` string), so the blank line is not "inserted only when both the
reduce/reduce and shift/reduce sets are non-empty". -/
theorem claim_C7_counterexample :
    (AriadneGrammarErrorHandler.new.on_unexpected_conflicts astFix grmFix
        ⟨[(0, 1, 0)], []⟩).map AriadneGrammarErrorHandler.errors = some "\n" :=
  rfl

/-- Claim C7 (amended): `on_unexpected_conflicts` pushes a `'\n'` onto the
handler's internal `errors` string exactly when at least one reduce/reduce
conflict is present, regardless of whether shift/reduce conflicts exist (the
string gates `results()` and is never part of the rendered report output);
with zero conflicts the handler state is unchanged: no reports and no
newline. -/
theorem claim_C7_amended_newline_on_rr (h : AriadneGrammarErrorHandler)
    (ast : GrammarAST) (grm : YaccGrammar) (c : Conflicts)
    (h' : AriadneGrammarErrorHandler)
    (hres : h.on_unexpected_conflicts ast grm c = some h') :
    (h'.errors = if c.rr_conflicts.isEmpty then h.errors else h.errors ++ "\n") ∧
    (c.rr_conflicts = [] → c.sr_conflicts = [] → h' = h) := by
  simp only [AriadneGrammarErrorHandler.on_unexpected_conflicts] at hres
  cases htm : tryMap (sr_report h.path ast grm) c.sr_conflicts with
  | none => rw [htm] at hres; cases hres
  | some srs =>
    rw [htm] at hres
    simp only [Option.map_some', Option.some_inj] at hres
    subst hres
    constructor
    · cases c.rr_conflicts <;> simp [List.isEmpty]
    · intro hrr hsr
      rw [hsr] at htm
      simp only [tryMap] at htm
      injection htm with htm
      subst htm
      simp [hrr]

/-- Witness for the amended C7: one concrete reduce/reduce conflict and no
shift/reduce conflicts; the resulting state's `errors` string is `"\n"`. -/
theorem claim_C7_amended_newline_on_rr_witness :
    (({ src := "", path := "",
        err_reports := [{ kind := .error, sourceId := "", offset := 0,
                          message := "Reduce/Reduce",
                          labels := [⟨⟨"", ⟨0, 1⟩⟩, "1st Reduce"⟩,
                                     ⟨⟨"", ⟨10, 11⟩⟩, "2nd Reduce"⟩],
                          note := none }],
        warning_reports := [], errors := "\n", warnings := "",
        warnings_are_errors := false } : AriadneGrammarErrorHandler).errors =
      if ([(0, 1, 0)] : List (Nat × Nat × Nat)).isEmpty then
        AriadneGrammarErrorHandler.new.errors
      else AriadneGrammarErrorHandler.new.errors ++ "\n") ∧
    (([(0, 1, 0)] : List (Nat × Nat × Nat)) = [] →
      ([] : List (Nat × Nat × Nat)) = [] →
      ({ src := "", path := "",
         err_reports := [{ kind := .error, sourceId := "", offset := 0,
                           message := "Reduce/Reduce",
                           labels := [⟨⟨"", ⟨0, 1⟩⟩, "1st Reduce"⟩,
                                      ⟨⟨"", ⟨10, 11⟩⟩, "2nd Reduce"⟩],
                           note := none }],
         warning_reports := [], errors := "\n", warnings := "",
         warnings_are_errors := false } : AriadneGrammarErrorHandler) =
        AriadneGrammarErrorHandler.new) :=
  claim_C7_amended_newline_on_rr AriadneGrammarErrorHandler.new astFix grmFix
    ⟨[(0, 1, 0)], []⟩
    { src := "", path := "",
      err_reports := [{ kind := .error, sourceId := "", offset := 0,
                        message := "Reduce/Reduce",
                        labels := [⟨⟨"", ⟨0, 1⟩⟩, "1st Reduce"⟩,
                                   ⟨⟨"", ⟨10, 11⟩⟩, "2nd Reduce"⟩],
                        note := none }],
      warning_reports := [], errors := "\n", warnings := "",
      warnings_are_errors := false }
    rfl

/-- Claim C10: the three span-carrying hooks `on_lex_build_error`,
`on_grammar_error` and `on_grammar_warning` take the first element of each
input's span list with `unwrap`, so a call panics (returns `none` in this
model) exactly when some input carries an empty span list. -/
theorem claim_C10_handlers_unwrap_first_span (hl : AriadneLexErrorHandler)
    (hg : AriadneGrammarErrorHandler) (les : List LexBuildError)
    (ges : List YaccGrammarError) (gws : List YaccGrammarWarning) :
    (hl.on_lex_build_error les = none ↔ ∃ e ∈ les, e.spans = []) ∧
    (hg.on_grammar_error ges = none ↔ ∃ e ∈ ges, e.spans = []) ∧
    (hg.on_grammar_warning gws = none ↔ ∃ w ∈ gws, w.spans = []) := by
  refine ⟨?_, ?_, ?_⟩ <;>
    simp [AriadneLexErrorHandler.on_lex_build_error,
          AriadneGrammarErrorHandler.on_grammar_error,
          AriadneGrammarErrorHandler.on_grammar_warning,
          Option.map_eq_none', tryMap_eq_none_iff, List.head?_eq_none_iff]

/-- Claim C9 (spec-modelled): span resolution returns the 1-based
`(line, column)` of `span.start` computed from the greatest newline offset at
or before it, returns `none` exactly when `span.start` exceeds the text
length, and on `"abc\ndef"` resolves offset 0 to line 1 column 1 and offset 4
to line 2 column 1. -/
theorem claim_C9_span_resolution (span : Span) (text : List Char) :
    (resolve span text = none ↔ span.start > text.length) ∧
    (span.start ≤ text.length →
      resolve span text =
        some (((newlineOffsets text).filter (· ≤ span.start)).length + 1,
              match ((newlineOffsets text).filter (· ≤ span.start)).getLast? with
              | none => span.start + 1
              | some off => span.start - off)) ∧
    resolve ⟨0, 0⟩ "abc\ndef".toList = some (1, 1) ∧
    resolve ⟨4, 4⟩ "abc\ndef".toList = some (2, 1) := by
  refine ⟨?_, ?_, by decide, by decide⟩
  · unfold resolve
    split
    · rename_i hgt
      simp [hgt]
    · rename_i hle
      cases hl : ((newlineOffsets text).filter (· ≤ span.start)).getLast? <;>
        simp [hl, hle]
  · intro hle
    unfold resolve
    rw [if_neg (by omega)]
    cases hl : ((newlineOffsets text).filter (· ≤ span.start)).getLast? with
    | none =>
      have hnil := List.getLast?_eq_none_iff.mp hl
      simp [hl, hnil]
    | some off => simp [hl]

/-- Code-bug evidence for C1: recording one grammar build error leaves the
vestigial `errors` STRING empty (only the reduce/reduce newline ever writes
it), so `results()` — which branches on that string, not on the report
vector it renders — returns `Ok(())` even though an error report was
recorded.  The claim requires `Err` here. -/
theorem claim_C1_error_recorded_but_ok :
    (AriadneGrammarErrorHandler.new.on_grammar_error
        [{ spans := [⟨0, 1⟩], message := "grammar build error" }]).map
      (fun st => (st.err_reports.length, st.errors, st.results renderPlain)) =
      some (1, "", Except.ok ()) :=
  rfl

/-- Code-bug evidence for C2: with only warnings recorded and
`warnings_are_errors` set to `true`, `results()` still returns `Ok(())` —
the stored flag is never read by `results()`, which branches only on the
vestigial `errors` string.  The claim requires `Err` containing the warning
text. -/
theorem claim_C2_warning_flag_never_read :
    ((AriadneGrammarErrorHandler.new.set_warnings_are_errors true).on_grammar_warning
        [{ spans := [⟨0, 1⟩], message := "grammar warning" }]).map
      (fun st => (st.warnings_are_errors, st.warning_reports.length,
                  st.results renderPlain)) =
      some (true, 1, Except.ok ()) :=
  rfl

/-- Code-bug evidence for C8: `missing_in_lexer({"NUM"})` builds a note that
lists the first set element and then re-traverses the WHOLE set, so `NUM`
appears twice (`"NUM, NUM"`), not exactly once; `results()` then surfaces the
duplicated note in its `Err` body. -/
theorem claim_C8_first_missing_token_duplicated :
    (AriadneLexErrorHandler.new.missing_in_lexer ["NUM"]).reports.map Report.note =
      [some "NUM, NUM"] ∧
    (AriadneLexErrorHandler.new.missing_in_lexer ["NUM"]).results renderPlain =
      .error ("The following tokens are used in the grammar but are not defined in the lexer:" ++
              "\nNUM, NUM\n") :=
  ⟨rfl, rfl⟩

/-- Counterexample for C4: on a concrete shift/reduce conflict the FIRST
(primary) label of the produced report is the token's `"Shifted"` label and
the rule's `"Reduced rule"` label comes second — the reverse of the claim —
and a token whose span lookup returns `None` makes `sr_report` (and hence the
whole `on_unexpected_conflicts` call) panic rather than proceed. -/
theorem claim_C4_counterexample :
    ((sr_report "erroneous.y" astFix grmFix (0, 0, 0)).map fun r =>
        r.labels.map Label.message) =
      some ["Shifted", "Reduced rule", "Reduced production", "Reduced production"] ∧
    sr_report "erroneous.y" astFix grmNoTokenSpan (0, 0, 0) = none ∧
    AriadneGrammarErrorHandler.new.on_unexpected_conflicts astFix grmNoTokenSpan
      ⟨[], [(0, 0, 0)]⟩ = none :=
  ⟨rfl, rfl, rfl⟩

/-- Claim C4 (amended): for every shift/reduce conflict whose token has both
a span and a name, the produced report has message `"Shift/Reduce"`; its
first label is the shifted token's span with text `"Shifted"`; its second
label is the name span of the rule owning the reduced production with text
`"Reduced rule"`; and one further `"Reduced production"` label is attached
per symbol span of the reduced production, in declaration order.  A token
whose span lookup yields `None` makes the handler panic (`unwrap`), modelled
as `none`, instead of producing a report. -/
theorem claim_C4_amended_shift_reduce_report (path : String) (ast : GrammarAST)
    (grm : YaccGrammar) (c : Nat × Nat × Nat) :
    (∀ sp nm, grm.token_span c.1 = some sp → grm.token_name c.1 = some nm →
      sr_report path ast grm c = some
        { kind := .error, sourceId := path,
          offset := (grm.rule_name_span (grm.prod_to_rule c.2.1)).start,
          message := "Shift/Reduce",
          labels := ⟨⟨path, sp⟩, "Shifted"⟩ ::
                    ⟨⟨path, grm.rule_name_span (grm.prod_to_rule c.2.1)⟩, "Reduced rule"⟩ ::
                    (pidx_prods_data ast c.2.1).2.map
                      (fun span => ⟨⟨path, span⟩, "Reduced production"⟩),
          note := none }) ∧
    (grm.token_span c.1 = none → sr_report path ast grm c = none) := by
  constructor
  · intro sp nm hsp hnm
    simp only [sr_report, hsp, hnm]
  · intro hsp
    simp only [sr_report, hsp]

/-- Witness for the amended C4 at the concrete fixtures: the full report for
a token with a span, and the panic for a token without one. -/
theorem claim_C4_amended_shift_reduce_report_witness :
    sr_report "p" astFix grmFix (0, 0, 0) = some
      { kind := .error, sourceId := "p", offset := 0, message := "Shift/Reduce",
        labels := [⟨⟨"p", ⟨100, 101⟩⟩, "Shifted"⟩, ⟨⟨"p", ⟨0, 1⟩⟩, "Reduced rule"⟩,
                   ⟨⟨"p", ⟨0, 1⟩⟩, "Reduced production"⟩,
                   ⟨⟨"p", ⟨2, 3⟩⟩, "Reduced production"⟩],
        note := none } ∧
    sr_report "p" astFix grmNoTokenSpan (0, 0, 0) = none :=
  ⟨(claim_C4_amended_shift_reduce_report "p" astFix grmFix (0, 0, 0)).1
      ⟨100, 101⟩ "T" rfl rfl,
   (claim_C4_amended_shift_reduce_report "p" astFix grmNoTokenSpan (0, 0, 0)).2 rfl⟩

/-- Witness for C9: the in-range characterization applied at offset 4 of
`"abc\ndef"`. -/
theorem claim_C9_span_resolution_witness :
    resolve ⟨4, 4⟩ "abc\ndef".toList =
      some (((newlineOffsets "abc\ndef".toList).filter (· ≤ 4)).length + 1,
            match ((newlineOffsets "abc\ndef".toList).filter (· ≤ 4)).getLast? with
            | none => 4 + 1
            | some off => 4 - off) :=
  (claim_C9_span_resolution ⟨4, 4⟩ "abc\ndef".toList).2.1 (by decide)
